import Mathlib

/-!
Verification of the kubeconfig synchronization logic, namespace-node status
aggregation and the resource-type registry of the vscode-gitops-tools
extension, shallowly embedded from the TypeScript sources
(`src/cli/kubernetes/kubernetesConfig.ts`,
`src/ui/treeviews/nodes/namespaceNode.ts`, the node-registry module).
-/

namespace GitOps

/-- One context entry of a multi-context kubeconfig: a named
(cluster, user) pair. Mirrors the context objects handled by
`kubeConfig.getContexts()`. -/
structure ContextEntry where
  name : String
  cluster : String
  user : String
deriving DecidableEq, Repr

/-- One entry of the raw serialized config text: either structurally valid
(carrying a context) or structurally invalid. This is the input on which
`loadFromString(..., {onInvalidEntry: ActionOnInvalid.FILTER})` acts. -/
inductive RawEntry where
  | valid (ctx : ContextEntry)
  | invalid
deriving DecidableEq, Repr

/-- Raw config text, as returned by the CLI on stdout. `extra` stands for
bytes of the serialization that do not affect the parsed context entries
(comments, formatting), so that byte-for-byte text comparison is strictly
finer than comparison of parsed contexts. -/
structure RawConfig where
  entries : List RawEntry
  currentContext : String
  extra : String := ""
deriving DecidableEq, Repr

/-- A parsed kubeconfig snapshot (`k8s.KubeConfig`): context list, selected
current context, and the raw text it was loaded from. -/
structure KubeConfig where
  contexts : List ContextEntry
  currentContext : String
  raw : RawConfig
deriving DecidableEq, Repr

/-- Embeds `newKubeConfig.loadFromString(text, {onInvalidEntry: FILTER})`:
structurally invalid entries are filtered out rather than failing the whole
parse; the current context name is taken from the raw text. -/
def loadFromStringFiltered (raw : RawConfig) : KubeConfig :=
  { contexts := raw.entries.filterMap fun e =>
      match e with
      | .valid ctx => some ctx
      | .invalid => none
    currentContext := raw.currentContext
    raw := raw }

/-- The freshly constructed `new k8s.KubeConfig()`: empty contexts, empty
current context. -/
def emptyKubeConfig : KubeConfig :=
  loadFromStringFiltered { entries := [], currentContext := "", extra := "" }

/-- Modelled from the spec: `kcTextChanged` lives in
`utils/kubeConfigCompare`, which is not among the provided sources. Per the
spec, `textChanged` is true iff the raw serialized text differs
byte-for-byte. -/
def kcTextChanged (a b : KubeConfig) : Bool :=
  a.raw != b.raw

/-- Modelled from the spec: `kcContextsListChanged` lives in
`utils/kubeConfigCompare`, which is not among the provided sources. Per the
spec, `contextsListChanged` is true iff the set of context names differs
(order-insensitive) or any context's underlying identity (cluster/user)
differs under the same name; equivalently, the two context lists differ as
sets of full entries. -/
def kcContextsListChanged (a b : KubeConfig) : Bool :=
  !(a.contexts.all (fun c => b.contexts.contains c) &&
    b.contexts.all (fun c => a.contexts.contains c))

/-- Modelled from the spec: `kcCurrentContextChanged` lives in
`utils/kubeConfigCompare`, which is not among the provided sources. Per the
spec, `currentContextChanged` is true iff the selected context name differs
between old and new. -/
def kcCurrentContextChanged (a b : KubeConfig) : Bool :=
  a.currentContext != b.currentContext

/-- Result of an external CLI invocation (`invokeKubectlCommand`):
exit code, stdout (already split into the raw-config shape for the
`config view` command), stderr. The invocation itself may also yield no
result at all, modelled by `Option ShellResult` at the call sites. -/
structure ShellResult where
  code : Int
  stdout : RawConfig
  stderr : String
deriving DecidableEq, Repr

/-- Embeds the `KubeConfigState` enum of `kubernetesConfig.ts`. -/
inductive KubeConfigState where
  | Loading
  | Loaded
  | Failed
  | NoContextSelected
deriving DecidableEq, Repr

/-- The module-level mutable state touched by the sync controller: the
committed kubeconfig snapshot, the sync state, and the two VS Code context
flags cleared via `setVSCodeContext` (`CurrentClusterGitOpsNotEnabled`,
`ClusterUnreachable`). -/
structure SyncEnv where
  kubeConfig : KubeConfig
  kubeConfigState : KubeConfigState
  gitopsNotEnabledFlag : Bool
  clusterUnreachableFlag : Bool
deriving DecidableEq, Repr

/-- Observable side effects of one sync cycle: telemetry error sent,
user-visible error message shown, `reloadClustersTreeView()` called,
`loadApiResources()` called. -/
structure SyncEffects where
  telemetryErrorSent : Bool
  errorShown : Bool
  clustersTreeReloaded : Bool
  apiResourcesLoaded : Bool
deriving DecidableEq, Repr

/-- No side effects. -/
def noEffects : SyncEffects :=
  { telemetryErrorSent := false, errorShown := false,
    clustersTreeReloaded := false, apiResourcesLoaded := false }

/-- Embeds `currentContextExists()`: the current context name is found among
the contexts of the committed kubeconfig. -/
def currentContextExists (kc : KubeConfig) : Bool :=
  kc.contexts.any fun context => context.name == kc.currentContext

/-- Embeds the private `kubeconfigChanged(newKubeConfig,
forceReloadResourceKinds)` of `kubernetesConfig.ts`: computes the two diff
predicates against the previously committed config, commits the new config,
possibly moves to `NoContextSelected`, clears the two VS Code flags when the
current context changed, and dispatches view/resource-kind reloads. -/
def kubeconfigChanged (newKubeConfig : KubeConfig) (forceReloadResourceKinds : Bool)
    (env : SyncEnv) : SyncEnv × SyncEffects :=
  let contextsListChanged := kcContextsListChanged env.kubeConfig newKubeConfig
  let contextChanged := kcCurrentContextChanged env.kubeConfig newKubeConfig
  let env1 : SyncEnv := { env with kubeConfig := newKubeConfig }
  let env2 : SyncEnv :=
    if !currentContextExists env1.kubeConfig then
      { env1 with kubeConfigState := .NoContextSelected }
    else env1
  let env3 : SyncEnv :=
    if contextChanged then
      { env2 with gitopsNotEnabledFlag := false, clusterUnreachableFlag := false }
    else env2
  if contextChanged || forceReloadResourceKinds then
    (env3, { noEffects with clustersTreeReloaded := true, apiResourcesLoaded := true })
  else if contextsListChanged then
    (env3, { noEffects with clustersTreeReloaded := true })
  else
    (env3, noEffects)

/-- Embeds `syncKubeConfig(forceReloadResourceKinds)`. The external CLI
invocation is passed in as `cliResult : Option ShellResult` (it is an
awaited collaborator call in the source). Follows the source line by line:
set state `Loading`; on missing result or non-zero exit send telemetry,
show an error, set state `Failed` and return; otherwise parse with
filtering, set state `Loaded`, and dispatch to `kubeconfigChanged` when the
text changed, else reload resource kinds only when forced. -/
def syncKubeConfig (forceReloadResourceKinds : Bool) (cliResult : Option ShellResult)
    (env : SyncEnv) : SyncEnv × SyncEffects :=
  let env0 : SyncEnv := { env with kubeConfigState := .Loading }
  match cliResult with
  | none =>
    ({ env0 with kubeConfigState := .Failed },
     { noEffects with telemetryErrorSent := true, errorShown := true })
  | some result =>
    if result.code != 0 then
      ({ env0 with kubeConfigState := .Failed },
       { noEffects with telemetryErrorSent := true, errorShown := true })
    else
      let newKubeConfig := loadFromStringFiltered result.stdout
      let env1 : SyncEnv := { env0 with kubeConfigState := .Loaded }
      if kcTextChanged env1.kubeConfig newKubeConfig then
        kubeconfigChanged newKubeConfig forceReloadResourceKinds env1
      else if forceReloadResourceKinds then
        (env1, { noEffects with apiResourcesLoaded := true })
      else
        (env1, noEffects)

/-- Result of `setCurrentContext`: whether the context was actually
switched. -/
structure SetContextResult where
  isChanged : Bool
deriving DecidableEq, Repr

/-- Observable side effects of `setCurrentContext`: whether the external CLI
was invoked at all, and whether a user-visible error was shown. -/
structure SetCtxEffects where
  cliInvoked : Bool
  errorShown : Bool
deriving DecidableEq, Repr

/-- Embeds `setCurrentContext(contextName)`: if the requested name equals
the committed current context, return `{isChanged: false}` without invoking
the CLI; otherwise invoke `config use-context`; a populated stderr is
reported as a failure (result `undefined`); a missing result or empty
stderr yields `{isChanged: true}`. -/
def setCurrentContext (contextName : String) (kc : KubeConfig)
    (cliResult : Option ShellResult) : Option SetContextResult × SetCtxEffects :=
  if kc.currentContext == contextName then
    (some { isChanged := false }, { cliInvoked := false, errorShown := false })
  else
    match cliResult with
    | some result =>
      if result.stderr != "" then
        (none, { cliInvoked := true, errorShown := true })
      else
        (some { isChanged := true }, { cliInvoked := true, errorShown := false })
    | none =>
      (some { isChanged := true }, { cliInvoked := true, errorShown := false })

/-- A child of a `NamespaceNode`, as distinguished by the `instanceof`
tests in `updateLabel`: a tracked child is a `SourceNode` or `WorkloadNode`
carrying its `resourceIsReady` / `resourceIsProgressing` flags; any other
node kind is untracked. -/
inductive ChildNode where
  | tracked (resourceIsReady : Bool) (resourceIsProgressing : Bool)
  | untracked
deriving DecidableEq, Repr

/-- One iteration of the counting loop of `NamespaceNode.updateLabel`:
given the `(readyLength, loadingLength)` accumulator, a tracked child
increments `readyLength` when ready, else `loadingLength` when progressing,
else neither; an untracked child always increments `readyLength`. -/
def countStep (acc : Nat × Nat) : ChildNode → Nat × Nat
  | .tracked resourceIsReady resourceIsProgressing =>
    if resourceIsReady then (acc.1 + 1, acc.2)
    else if resourceIsProgressing then (acc.1, acc.2 + 1)
    else acc
  | .untracked => (acc.1 + 1, acc.2)

/-- The counting loop of `NamespaceNode.updateLabel`, started from a given
accumulator. -/
def updateCountsFrom (acc : Nat × Nat) : List ChildNode → Nat × Nat
  | [] => acc
  | child :: rest => updateCountsFrom (countStep acc child) rest

/-- The `(readyLength, loadingLength)` pair computed by the `for` loop of
`NamespaceNode.updateLabel` over the node's children, starting from
`readyLength = 0`, `loadingLength = 0`. -/
def updateCounts (children : List ChildNode) : Nat × Nat :=
  updateCountsFrom (0, 0) children

/-- Embeds `TreeNodeIcon` (the cases used by `updateLabel`). -/
inductive TreeNodeIcon where
  | Success
  | Progressing
  | Warning
deriving DecidableEq, Repr

/-- Embeds `TreeItemCollapsibleState` of the host tree API. -/
inductive CollapsibleState where
  | Collapsed
  | Expanded
  | NoneState
deriving DecidableEq, Repr

/-- The fields of a `NamespaceNode` read by `updateLabel`: the namespace
name (`this.resource.metadata?.name`), the collapsibility state, and the
children list. -/
structure NamespaceNode where
  name : String
  collapsibleState : CollapsibleState
  children : List ChildNode
deriving DecidableEq, Repr

/-- The outputs of `NamespaceNode.updateLabel`: the icon set via
`setIcon` (none when icons are disabled) and the textual label. -/
structure UpdateLabelResult where
  icon : Option TreeNodeIcon
  label : String
deriving DecidableEq, Repr

/-- Embeds `NamespaceNode.updateLabel(withIcons)`: counts ready and
progressing children, derives `validLength = readyLength + loadingLength`,
sets the icon (Success when all ready, Progressing when all valid, else
Warning), then sets the label: when collapsed, `name (total)` if
`total == valid` else `name (valid/total)`; otherwise the plain name. -/
def updateLabel (node : NamespaceNode) (withIcons : Bool := true) : UpdateLabelResult :=
  let totalLength := node.children.length
  let counts := updateCounts node.children
  let readyLength := counts.1
  let loadingLength := counts.2
  let validLength := readyLength + loadingLength
  let icon : Option TreeNodeIcon :=
    if withIcons then
      if readyLength == totalLength then some .Success
      else if validLength == totalLength then some .Progressing
      else some .Warning
    else none
  let label : String :=
    if node.collapsibleState == .Collapsed then
      let lengthLabel :=
        if totalLength == validLength then toString totalLength
        else toString validLength ++ "/" ++ toString totalLength
      node.name ++ " (" ++ lengthLabel ++ ")"
    else
      node.name
  { icon := icon, label := label }

/-- Spec-side count (for refinement comparison): ready children are the
Source/Workload children with `resourceIsReady` plus all children not of a
Source/Workload kind. -/
def readyCountSpec (cs : List ChildNode) : Nat :=
  cs.countP fun c =>
    match c with
    | .tracked resourceIsReady _ => resourceIsReady
    | .untracked => true

/-- Spec-side count (for refinement comparison): progressing children are
the Source/Workload children with `resourceIsProgressing`; untracked
children never count as progressing. -/
def progressingCountSpec (cs : List ChildNode) : Nat :=
  cs.countP fun c =>
    match c with
    | .tracked _ resourceIsProgressing => resourceIsProgressing
    | .untracked => false

/-- The readiness-flag invariant of the data model: on every tracked child
at most one of `resourceIsReady` / `resourceIsProgressing` is set. -/
def readinessExclusive (cs : List ChildNode) : Bool :=
  cs.all fun c =>
    match c with
    | .tracked resourceIsReady resourceIsProgressing =>
      !(resourceIsReady && resourceIsProgressing)
    | .untracked => true

/-- The tree-node constructors appearing as values of the fixed
`nodeConstructors` table of the registry module. -/
inductive NodeConstructor where
  | BucketNode
  | GitRepositoryNode
  | OCIRepositoryNode
  | HelmRepositoryNode
  | HelmReleaseNode
  | KustomizationNode
  | GitOpsTemplateNode
  | NamespaceNodeCtor
  | AnyResourceNode
deriving DecidableEq, Repr

/-- The OWN properties of the `nodeConstructors` object literal: kind
string to constructor for the twelve listed kinds, nothing for any other
string. The literal is a plain JS object, so a bracket lookup that misses
these own properties falls through to `Object.prototype`; that prototype
step is embedded separately in `nodeConstructorsGet`. -/
def nodeConstructors : String → Option NodeConstructor
  | "Bucket" => some .BucketNode
  | "GitRepository" => some .GitRepositoryNode
  | "OCIRepository" => some .OCIRepositoryNode
  | "HelmRepository" => some .HelmRepositoryNode
  | "HelmRelease" => some .HelmReleaseNode
  | "Kustomization" => some .KustomizationNode
  | "GitOpsTemplate" => some .GitOpsTemplateNode
  | "Namespace" => some .NamespaceNodeCtor
  | "Deployment" => some .AnyResourceNode
  | "Node" => some .AnyResourceNode
  | "Pod" => some .AnyResourceNode
  | "ConfigMap" => some .AnyResourceNode
  | _ => none

/-- The kind strings that have an entry in `nodeConstructors`. -/
def supportedKinds : List String :=
  ["Bucket", "GitRepository", "OCIRepository", "HelmRepository",
   "HelmRelease", "Kustomization", "GitOpsTemplate", "Namespace",
   "Deployment", "Node", "Pod", "ConfigMap"]

/-- The property names inherited from `Object.prototype`, which a bracket
lookup on the plain `nodeConstructors` object literal reaches when no own
property matches. All of their values are truthy (built-in functions, the
`Object` constructor, and the `__proto__` accessor's object value). -/
def objectPrototypeProps : List String :=
  ["constructor", "hasOwnProperty", "isPrototypeOf", "propertyIsEnumerable",
   "toLocaleString", "toString", "valueOf", "__defineGetter__", "__defineSetter__",
   "__lookupGetter__", "__lookupSetter__", "__proto__"]

/-- Result of the JS bracket lookup `nodeConstructors[kind]`: an own entry
of the object literal, the inherited `Object` constructor (property name
`constructor`), some other truthy inherited non-constructor value from
`Object.prototype`, or `undefined`. -/
inductive ConstructorLookup where
  | ownCtor (c : NodeConstructor)
  | inheritedObjectCtor
  | inheritedNonConstructor
  | undefinedValue
deriving DecidableEq, Repr

/-- The `Object.prototype` part of the lookup: `constructor` holds the
`Object` constructor; the other inherited property names hold truthy
non-constructor values; any other name is `undefined`. -/
def objectPrototypeLookup (kind : String) : ConstructorLookup :=
  if kind = "constructor" then .inheritedObjectCtor
  else if kind ∈ objectPrototypeProps then .inheritedNonConstructor
  else .undefinedValue

/-- Embeds the full JS bracket lookup `nodeConstructors[kind]`: own
properties of the object literal shadow the prototype; on a miss the
lookup falls through to `Object.prototype`. -/
def nodeConstructorsGet (kind : String) : ConstructorLookup :=
  match nodeConstructors kind with
  | some c => .ownCtor c
  | none => objectPrototypeLookup kind

/-- The part of a `KubernetesObject` inspected by `makeTreeNode`: the
optional `kind` field (`kind?: string`). -/
structure KubernetesObject where
  kind : Option String
deriving DecidableEq, Repr

/-- The runtime outcome of `makeTreeNode(object)`: a constructed tree node,
the value `undefined`, a thrown `TypeError` (from `new` applied to a truthy
inherited non-constructor such as `Object.prototype.toString`), or the
plain input object (from `new Object(object)` when the kind is
`constructor`). -/
inductive MakeNodeOutcome where
  | node (c : NodeConstructor)
  | undefinedResult
  | typeError
  | objectResult
deriving DecidableEq, Repr

/-- Embeds `makeTreeNode(object)`: return `undefined` when `object.kind` is
falsy (absent or the empty string); otherwise perform the bracket lookup
with its prototype chain. A truthy lookup result passes the
`if(constructor)` guard and is fed to `new`: an own table entry constructs
the node, the inherited `Object` constructor returns the plain input
object, and any other inherited value is not a constructor, so `new`
throws a `TypeError`; an `undefined` lookup fails the guard and the
function returns `undefined`. -/
def makeTreeNode (object : KubernetesObject) : MakeNodeOutcome :=
  match object.kind with
  | none => .undefinedResult
  | some kind =>
    if kind = "" then .undefinedResult
    else
      match nodeConstructorsGet kind with
      | .ownCtor c => .node c
      | .inheritedObjectCtor => .objectResult
      | .inheritedNonConstructor => .typeError
      | .undefinedValue => .undefinedResult

/-- A sample children list used by concrete witnesses: one ready tracked
child, one progressing tracked child, one untracked child. -/
def sampleChildren : List ChildNode :=
  [.tracked true false, .tracked false true, .untracked]

/-- A sample namespace node over `sampleChildren`, collapsed. -/
def sampleNamespaceNode : NamespaceNode :=
  { name := "ns", collapsibleState := .Collapsed, children := sampleChildren }

/-- Structural validity of a raw entry (the property tested by the
`onInvalidEntry: FILTER` parse option). -/
def isValidEntry : RawEntry → Bool
  | .valid _ => true
  | .invalid => false

/-- Sample context named `a`. -/
def sampleCtxA : ContextEntry :=
  { name := "a", cluster := "clusterA", user := "userA" }

/-- Sample context named `b`. -/
def sampleCtxB : ContextEntry :=
  { name := "b", cluster := "clusterB", user := "userB" }

/-- Sample raw config with contexts `a` and `b`, current context `a`. -/
def sampleRawAB : RawConfig :=
  { entries := [.valid sampleCtxA, .valid sampleCtxB], currentContext := "a", extra := "" }

/-- Sample raw config in which context `a` was removed while the
current-context field still names `a`. -/
def sampleRawRemovedA : RawConfig :=
  { entries := [.valid sampleCtxB], currentContext := "a", extra := "" }

/-- Sample raw config with contexts `a` and `b` and current context
switched to `b`. -/
def sampleRawSwitchedB : RawConfig :=
  { entries := [.valid sampleCtxA, .valid sampleCtxB], currentContext := "b", extra := "" }

/-- Sample raw config with one structurally invalid entry among the two
valid contexts `a` and `b`, current context `a`. -/
def sampleRawWithInvalid : RawConfig :=
  { entries := [.valid sampleCtxA, .invalid, .valid sampleCtxB],
    currentContext := "a", extra := "" }

/-- Sample committed module state: kubeconfig loaded from `sampleRawAB`,
state `Loaded`, both VS Code flags set. -/
def sampleEnv : SyncEnv :=
  { kubeConfig := loadFromStringFiltered sampleRawAB
    kubeConfigState := .Loaded
    gitopsNotEnabledFlag := true
    clusterUnreachableFlag := true }

/-- Sample failing CLI result: non-zero exit code. -/
def sampleFailResult : ShellResult :=
  { code := 1, stdout := sampleRawAB, stderr := "error" }

/-- A collapsed namespace node whose single tracked child is ready. -/
def sampleAllReadyNode : NamespaceNode :=
  { name := "ns", collapsibleState := .Collapsed, children := [.tracked true false] }

/-- Sample successful CLI result whose output removed context `a` while
keeping it selected. -/
def sampleRemovedAResult : ShellResult :=
  { code := 0, stdout := sampleRawRemovedA, stderr := "" }

/-- Sample successful CLI result whose output switches the current context
to `b`. -/
def sampleSwitchedBResult : ShellResult :=
  { code := 0, stdout := sampleRawSwitchedB, stderr := "" }

/-- Sample successful CLI result whose output contains one structurally
invalid entry among two valid contexts. -/
def sampleInvalidEntryResult : ShellResult :=
  { code := 0, stdout := sampleRawWithInvalid, stderr := "" }

/-- Sample successful CLI result whose output matches `sampleRawAB`
byte-for-byte. -/
def sampleUnchangedResult : ShellResult :=
  { code := 0, stdout := sampleRawAB, stderr := "" }

/-- Helper: the counting loop started at accumulator `acc` adds the
spec-side ready and progressing counts to it, provided the readiness flags
of every tracked child are mutually exclusive. -/
theorem updateCountsFrom_eq (cs : List ChildNode) :
    ∀ acc : Nat × Nat, readinessExclusive cs = true →
      updateCountsFrom acc cs = (acc.1 + readyCountSpec cs, acc.2 + progressingCountSpec cs) := by
  induction cs with
  | nil =>
    intro acc _
    simp [updateCountsFrom, readyCountSpec, progressingCountSpec]
  | cons c rest ih =>
    intro acc h
    simp only [readinessExclusive, List.all_cons, Bool.and_eq_true] at h
    have hrest := ih (countStep acc c) (by simpa [readinessExclusive] using h.2)
    have hstep : updateCountsFrom acc (c :: rest) = updateCountsFrom (countStep acc c) rest := rfl
    rw [hstep, hrest]
    have hc := h.1
    cases c with
    | tracked r p =>
      cases r <;> cases p <;>
        simp_all [countStep, readyCountSpec, progressingCountSpec, List.countP_cons,
          Prod.ext_iff] <;> omega
    | untracked =>
      simp [countStep, readyCountSpec, progressingCountSpec, List.countP_cons, Prod.ext_iff]
      omega

/-- Helper: the counting loop increments the accumulator total by at most
one per child, so the final ready + loading total is bounded by the number
of children plus the starting total. -/
theorem updateCountsFrom_le (cs : List ChildNode) :
    ∀ acc : Nat × Nat,
      (updateCountsFrom acc cs).1 + (updateCountsFrom acc cs).2 ≤ acc.1 + acc.2 + cs.length := by
  induction cs with
  | nil =>
    intro acc
    simp [updateCountsFrom]
  | cons c rest ih =>
    intro acc
    have hstep : (countStep acc c).1 + (countStep acc c).2 ≤ acc.1 + acc.2 + 1 := by
      cases c with
      | tracked r p =>
        cases r <;> cases p <;> simp [countStep] <;> omega
      | untracked =>
        simp [countStep]
        omega
    have hrec := ih (countStep acc c)
    have hlen : (c :: rest).length = rest.length + 1 := by simp
    have huf : updateCountsFrom acc (c :: rest) = updateCountsFrom (countStep acc c) rest := rfl
    rw [huf, hlen]
    omega

/-- C3: with icons enabled, `updateLabel` computes exactly the spec-side
counts (ready = Source/Workload children with `resourceIsReady` plus all
children of untracked kinds; progressing = Source/Workload children with
`resourceIsProgressing`) and sets the icon to Success when ready equals
total, Progressing when ready + progressing equals total, and Warning
otherwise, assuming the data-model invariant that the two readiness flags
of a tracked child are never set together. -/
theorem updateLabel_counts_and_icon (node : NamespaceNode)
    (h : readinessExclusive node.children = true) :
    (updateCounts node.children).1 = readyCountSpec node.children ∧
    (updateCounts node.children).2 = progressingCountSpec node.children ∧
    (updateLabel node true).icon =
      some (if readyCountSpec node.children = node.children.length then TreeNodeIcon.Success
        else if readyCountSpec node.children + progressingCountSpec node.children
            = node.children.length then TreeNodeIcon.Progressing
        else TreeNodeIcon.Warning) := by
  have hc : updateCounts node.children
      = (readyCountSpec node.children, progressingCountSpec node.children) := by
    simpa using updateCountsFrom_eq node.children (0, 0) h
  refine ⟨by simp [hc], by simp [hc], ?_⟩
  simp only [updateLabel, hc]
  by_cases h1 : readyCountSpec node.children = node.children.length
  · simp [h1]
  · by_cases h2 : readyCountSpec node.children + progressingCountSpec node.children
        = node.children.length
    · simp [h1, h2]
    · simp [h1, h2]

/-- C3 witness: a namespace node with one ready Source/Workload child, one
progressing one and one untracked child satisfies the exclusivity
hypothesis, and the theorem's conclusion evaluates at it. -/
theorem updateLabel_counts_and_icon_witness :
    readinessExclusive sampleNamespaceNode.children = true ∧
    ((updateCounts sampleNamespaceNode.children).1 = readyCountSpec sampleNamespaceNode.children ∧
    (updateCounts sampleNamespaceNode.children).2
      = progressingCountSpec sampleNamespaceNode.children ∧
    (updateLabel sampleNamespaceNode true).icon =
      some (if readyCountSpec sampleNamespaceNode.children
          = sampleNamespaceNode.children.length then TreeNodeIcon.Success
        else if readyCountSpec sampleNamespaceNode.children
            + progressingCountSpec sampleNamespaceNode.children
            = sampleNamespaceNode.children.length then TreeNodeIcon.Progressing
        else TreeNodeIcon.Warning)) :=
  ⟨by decide, updateLabel_counts_and_icon sampleNamespaceNode (by decide)⟩

/-- C4: after `updateLabel` recomputes the counts, with
valid = ready + loading, the identity
ready + loading + (total - valid) = total holds for every children list. -/
theorem updateCounts_aggregate_invariant (node : NamespaceNode) :
    (updateCounts node.children).1 + (updateCounts node.children).2 +
      (node.children.length -
        ((updateCounts node.children).1 + (updateCounts node.children).2))
      = node.children.length := by
  have hle := updateCountsFrom_le node.children (0, 0)
  simp only [updateCounts]
  omega

/-- C7 counterexample: a collapsed namespace node whose single
Source/Workload child is ready gets the label `ns (1)`, not the plain
`ns` that the claim predicts for a node all of whose children are ready. -/
theorem updateLabel_collapsed_label_counterexample :
    (updateLabel sampleAllReadyNode true).label = "ns (1)" ∧
    "ns (1)" ≠ "ns" := by
  constructor
  · decide
  · decide

/-- C7 amended: `updateLabel` recomputes the aggregate counts and only then
sets the label; when the node is collapsed the label is
`name (valid/total)` if valid differs from total and `name (total)` if all
children are valid, and the plain `name` alone when the node is not
collapsed (here valid = spec-side ready + progressing, assuming the
readiness-flag exclusivity invariant). -/
theorem updateLabel_label_amended (node : NamespaceNode)
    (h : readinessExclusive node.children = true) :
    (updateLabel node true).label =
      if node.collapsibleState = CollapsibleState.Collapsed then
        if node.children.length
            = readyCountSpec node.children + progressingCountSpec node.children then
          node.name ++ " (" ++ toString node.children.length ++ ")"
        else
          node.name ++ " ("
            ++ toString (readyCountSpec node.children + progressingCountSpec node.children)
            ++ "/" ++ toString node.children.length ++ ")"
      else node.name := by
  have hc : updateCounts node.children
      = (readyCountSpec node.children, progressingCountSpec node.children) := by
    simpa using updateCountsFrom_eq node.children (0, 0) h
  simp only [updateLabel, hc]
  by_cases hcol : node.collapsibleState = CollapsibleState.Collapsed
  · by_cases hlen : node.children.length
        = readyCountSpec node.children + progressingCountSpec node.children
    · simp [hcol, hlen]
    · simp [hcol, hlen, String.append_assoc]
  · simp [hcol]

/-- C7 amended witness: on the sample collapsed node with one ready, one
progressing and one untracked child the exclusivity hypothesis holds and
the amended label equation evaluates. -/
theorem updateLabel_label_amended_witness :
    readinessExclusive sampleNamespaceNode.children = true ∧
    (updateLabel sampleNamespaceNode true).label =
      (if sampleNamespaceNode.collapsibleState = CollapsibleState.Collapsed then
        if sampleNamespaceNode.children.length
            = readyCountSpec sampleNamespaceNode.children
              + progressingCountSpec sampleNamespaceNode.children then
          sampleNamespaceNode.name ++ " (" ++ toString sampleNamespaceNode.children.length ++ ")"
        else
          sampleNamespaceNode.name ++ " ("
            ++ toString (readyCountSpec sampleNamespaceNode.children
              + progressingCountSpec sampleNamespaceNode.children)
            ++ "/" ++ toString sampleNamespaceNode.children.length ++ ")"
      else sampleNamespaceNode.name) :=
  ⟨by decide, updateLabel_label_amended sampleNamespaceNode (by decide)⟩

/-- Helper: a kind string has an entry in the fixed constructor table
exactly when it is one of the supported kind strings. -/
theorem nodeConstructors_isSome_iff (s : String) :
    (nodeConstructors s).isSome = true ↔ s ∈ supportedKinds := by
  unfold nodeConstructors supportedKinds
  split <;> simp_all

/-- C9 counterexample: `toString` and `constructor` are kind strings
outside the fixed supported table, yet `makeTreeNode` does not return
`undefined` on them: the bracket lookup reaches `Object.prototype`, whose
truthy values pass the guard, so kind `toString` makes `new` throw a
`TypeError` and kind `constructor` returns the plain input object. -/
theorem makeTreeNode_prototype_counterexample :
    makeTreeNode { kind := some "toString" } = MakeNodeOutcome.typeError ∧
    makeTreeNode { kind := some "constructor" } = MakeNodeOutcome.objectResult ∧
    "toString" ∉ supportedKinds ∧
    "constructor" ∉ supportedKinds ∧
    MakeNodeOutcome.typeError ≠ MakeNodeOutcome.undefinedResult ∧
    MakeNodeOutcome.objectResult ≠ MakeNodeOutcome.undefinedResult := by
  decide

/-- C9 amended: `makeTreeNode` constructs a tree node exactly for the
kinds of the fixed supported table; it throws a `TypeError` exactly for a
kind naming an `Object.prototype` property other than `constructor`; it
returns the plain input object exactly for kind `constructor`; and it
returns `undefined` exactly when the kind field is missing, empty, or a
string neither in the supported table nor among the `Object.prototype`
property names. -/
theorem makeTreeNode_lookup_amended (object : KubernetesObject) :
    ((∃ c, makeTreeNode object = MakeNodeOutcome.node c) ↔
      (∃ s, object.kind = some s ∧ s ∈ supportedKinds)) ∧
    (makeTreeNode object = MakeNodeOutcome.typeError ↔
      (∃ s, object.kind = some s ∧ s ∈ objectPrototypeProps ∧ s ≠ "constructor")) ∧
    (makeTreeNode object = MakeNodeOutcome.objectResult ↔
      object.kind = some "constructor") ∧
    (makeTreeNode object = MakeNodeOutcome.undefinedResult ↔
      (object.kind = none ∨ object.kind = some "" ∨
        (∃ s, object.kind = some s ∧ s ∉ supportedKinds ∧ s ∉ objectPrototypeProps))) := by
  have hdisj : ∀ s ∈ objectPrototypeProps, s ∉ supportedKinds := by decide
  cases hk : object.kind with
  | none => simp [makeTreeNode, hk]
  | some s =>
    by_cases hs : s = ""
    · subst hs
      simp [makeTreeNode, hk, supportedKinds, objectPrototypeProps]
    · simp only [makeTreeNode, hk, hs, if_neg hs]
      cases hm : nodeConstructors s with
      | some c =>
        have hsup : s ∈ supportedKinds := by
          have : (nodeConstructors s).isSome = true := by simp [hm]
          exact (nodeConstructors_isSome_iff s).mp this
        have hnp : s ∉ objectPrototypeProps := fun hmem => hdisj s hmem hsup
        have hcon : s ≠ "constructor" := by
          intro h
          subst h
          revert hsup
          decide
        simp [nodeConstructorsGet, hm, hsup, hnp, hcon, hs]
      | none =>
        have hsup : s ∉ supportedKinds := by
          intro hmem
          have := (nodeConstructors_isSome_iff s).mpr hmem
          simp [hm] at this
        by_cases hcon : s = "constructor"
        · subst hcon
          have hmem : "constructor" ∈ objectPrototypeProps := by decide
          simp [nodeConstructorsGet, objectPrototypeLookup, hm, hsup, hmem]
        · by_cases hproto : s ∈ objectPrototypeProps
          · simp [nodeConstructorsGet, objectPrototypeLookup, hm, hsup, hcon, hproto, hs]
          · simp [nodeConstructorsGet, objectPrototypeLookup, hm, hsup, hcon, hproto, hs]

/-- C10: when the requested context name equals the committed current
context, `setCurrentContext` returns `{isChanged: false}` without invoking
the external CLI and without showing an error. -/
theorem setCurrentContext_noop (contextName : String) (kc : KubeConfig)
    (cliResult : Option ShellResult) (h : kc.currentContext = contextName) :
    setCurrentContext contextName kc cliResult
      = (some { isChanged := false }, { cliInvoked := false, errorShown := false }) := by
  simp [setCurrentContext, h]

/-- C10 witness: the sample kubeconfig has current context `a`, and asking
to switch to `a` is a no-op with no CLI invocation. -/
theorem setCurrentContext_noop_witness :
    (loadFromStringFiltered sampleRawAB).currentContext = "a" ∧
    setCurrentContext "a" (loadFromStringFiltered sampleRawAB) none
      = (some { isChanged := false }, { cliInvoked := false, errorShown := false }) :=
  ⟨by decide, setCurrentContext_noop "a" (loadFromStringFiltered sampleRawAB) none (by decide)⟩

/-- Helper: full characterization of `kubeconfigChanged`: the new config is
committed; the state drops to `NoContextSelected` when the new current
context is absent; the two VS Code flags are cleared exactly when the
current context name changed; the cluster tree reloads when the context
changed, a reload was forced, or the contexts list changed; the resource
kinds reload when the context changed or a reload was forced. -/
theorem kubeconfigChanged_spec (newKc : KubeConfig) (force : Bool) (env : SyncEnv) :
    kubeconfigChanged newKc force env =
      ({ kubeConfig := newKc
         kubeConfigState :=
           if currentContextExists newKc then env.kubeConfigState
           else KubeConfigState.NoContextSelected
         gitopsNotEnabledFlag :=
           if kcCurrentContextChanged env.kubeConfig newKc then false
           else env.gitopsNotEnabledFlag
         clusterUnreachableFlag :=
           if kcCurrentContextChanged env.kubeConfig newKc then false
           else env.clusterUnreachableFlag },
       { telemetryErrorSent := false
         errorShown := false
         clustersTreeReloaded :=
           kcCurrentContextChanged env.kubeConfig newKc || force
             || kcContextsListChanged env.kubeConfig newKc
         apiResourcesLoaded := kcCurrentContextChanged env.kubeConfig newKc || force }) := by
  unfold kubeconfigChanged
  cases hcc : kcCurrentContextChanged env.kubeConfig newKc <;>
    cases hex : currentContextExists newKc <;>
      cases hcl : kcContextsListChanged env.kubeConfig newKc <;>
        cases force <;>
          simp [hcc, hex, hcl, noEffects]

/-- Helper: when the CLI succeeds with raw output whose parse differs
byte-for-byte from the committed config, `syncKubeConfig` reduces to
`kubeconfigChanged` on the parsed config with the state set to `Loaded`. -/
theorem syncKubeConfig_changed_eq (force : Bool) (env : SyncEnv) (raw : RawConfig)
    (stderr : String)
    (ht : kcTextChanged env.kubeConfig (loadFromStringFiltered raw) = true) :
    syncKubeConfig force (some { code := 0, stdout := raw, stderr := stderr }) env
      = kubeconfigChanged (loadFromStringFiltered raw) force
          { env with kubeConfigState := KubeConfigState.Loaded } := by
  simp [syncKubeConfig, ht]

/-- Helper: when the CLI succeeds with raw output whose parse equals the
committed config byte-for-byte, `syncKubeConfig` only sets the state to
`Loaded` and, when forced, loads the resource kinds. -/
theorem syncKubeConfig_unchanged_eq (force : Bool) (env : SyncEnv) (raw : RawConfig)
    (stderr : String)
    (ht : kcTextChanged env.kubeConfig (loadFromStringFiltered raw) = false) :
    syncKubeConfig force (some { code := 0, stdout := raw, stderr := stderr }) env
      = ({ env with kubeConfigState := KubeConfigState.Loaded },
         if force then { noEffects with apiResourcesLoaded := true } else noEffects) := by
  cases force <;> simp [syncKubeConfig, ht]

/-- Helper: the number of contexts obtained by the filtering parse equals
the number of structurally valid raw entries. -/
theorem filterMap_valid_length (es : List RawEntry) :
    (es.filterMap fun e =>
      match e with
      | RawEntry.valid ctx => some ctx
      | RawEntry.invalid => none).length = es.countP isValidEntry := by
  induction es with
  | nil => simp
  | cons e rest ih =>
    cases e <;> simp [isValidEntry, List.countP_cons, ih]

/-- C1: when the CLI invocation yields no result or a non-zero exit code,
`syncKubeConfig` sets the state to `Failed`, shows a user-visible error,
and leaves the committed kubeconfig snapshot exactly as it was. -/
theorem syncKubeConfig_cli_failure (force : Bool) (cliResult : Option ShellResult)
    (env : SyncEnv) (h : ∀ result, cliResult = some result → result.code ≠ 0) :
    (syncKubeConfig force cliResult env).1.kubeConfigState = KubeConfigState.Failed ∧
    (syncKubeConfig force cliResult env).2.errorShown = true ∧
    (syncKubeConfig force cliResult env).1.kubeConfig = env.kubeConfig := by
  cases cliResult with
  | none => simp [syncKubeConfig, noEffects]
  | some result =>
    have hc : (result.code != 0) = true := by
      simpa [bne_iff_ne] using h result rfl
    simp [syncKubeConfig, hc, noEffects]

/-- C1 witness: a CLI result with exit code 1 satisfies the failure
hypothesis, and the failed sync keeps the sample committed snapshot. -/
theorem syncKubeConfig_cli_failure_witness :
    (∀ result, (some sampleFailResult : Option ShellResult) = some result →
      result.code ≠ 0) ∧
    ((syncKubeConfig false (some sampleFailResult) sampleEnv).1.kubeConfigState
        = KubeConfigState.Failed ∧
    (syncKubeConfig false (some sampleFailResult) sampleEnv).2.errorShown = true ∧
    (syncKubeConfig false (some sampleFailResult) sampleEnv).1.kubeConfig
        = sampleEnv.kubeConfig) :=
  ⟨fun result hr => by cases hr; decide,
    syncKubeConfig_cli_failure false (some sampleFailResult) sampleEnv
      (fun result hr => by cases hr; decide)⟩

/-- C2: parsing during a successful sync filters out the structurally
invalid entries: when the raw output has one invalid entry among `n` valid
ones, the resulting committed snapshot has exactly `n` contexts and the
sync state is `Loaded` (assuming the committed snapshot is itself the parse
of some earlier raw text, and the new current context exists). -/
theorem syncKubeConfig_partial_parse (force : Bool) (env : SyncEnv) (raw oldRaw : RawConfig)
    (stderr : String) (n : Nat)
    (hwf : env.kubeConfig = loadFromStringFiltered oldRaw)
    (hinv : raw.entries.countP (fun e => !isValidEntry e) = 1)
    (hval : raw.entries.countP isValidEntry = n)
    (hcur : currentContextExists (loadFromStringFiltered raw) = true) :
    (syncKubeConfig force (some { code := 0, stdout := raw, stderr := stderr })
        env).1.kubeConfig.contexts.length = n ∧
    (syncKubeConfig force (some { code := 0, stdout := raw, stderr := stderr })
        env).1.kubeConfigState = KubeConfigState.Loaded := by
  have hlen : (loadFromStringFiltered raw).contexts.length = n := by
    simpa [loadFromStringFiltered, filterMap_valid_length] using hval
  by_cases ht : kcTextChanged env.kubeConfig (loadFromStringFiltered raw) = true
  · rw [syncKubeConfig_changed_eq force env raw stderr ht, kubeconfigChanged_spec]
    simp [hcur, hlen]
  · have ht2 : kcTextChanged env.kubeConfig (loadFromStringFiltered raw) = false := by
      simpa using ht
    rw [syncKubeConfig_unchanged_eq force env raw stderr ht2]
    have hraw : oldRaw = raw := by
      have h1 : env.kubeConfig.raw = (loadFromStringFiltered raw).raw := by
        simpa [kcTextChanged] using ht2
      rw [hwf] at h1
      simpa [loadFromStringFiltered] using h1
    refine ⟨?_, rfl⟩
    show env.kubeConfig.contexts.length = n
    rw [hwf, hraw]
    exact hlen

/-- C2 witness: the sample raw output with one invalid entry among the two
valid contexts `a` and `b` satisfies the hypotheses against the sample
committed state, and the resulting snapshot has 2 contexts with state
`Loaded`. -/
theorem syncKubeConfig_partial_parse_witness :
    sampleEnv.kubeConfig = loadFromStringFiltered sampleRawAB ∧
    sampleRawWithInvalid.entries.countP (fun e => !isValidEntry e) = 1 ∧
    sampleRawWithInvalid.entries.countP isValidEntry = 2 ∧
    currentContextExists (loadFromStringFiltered sampleRawWithInvalid) = true ∧
    ((syncKubeConfig false (some { code := 0, stdout := sampleRawWithInvalid, stderr := "" })
        sampleEnv).1.kubeConfig.contexts.length = 2 ∧
    (syncKubeConfig false (some { code := 0, stdout := sampleRawWithInvalid, stderr := "" })
        sampleEnv).1.kubeConfigState = KubeConfigState.Loaded) :=
  ⟨by decide, by decide, by decide, by decide,
    syncKubeConfig_partial_parse false sampleEnv sampleRawWithInvalid sampleRawAB "" 2
      (by decide) (by decide) (by decide) (by decide)⟩

/-- C5: in a sync cycle where the text changed, if the current context
changed or a reload was forced then both the cluster tree view and the
resource-kind cache are reloaded; otherwise, if only the contexts list
changed, the cluster tree view alone is reloaded and the resource-kind
cache is not. -/
theorem syncKubeConfig_dispatch (force : Bool) (env : SyncEnv) (raw : RawConfig)
    (stderr : String)
    (ht : kcTextChanged env.kubeConfig (loadFromStringFiltered raw) = true) :
    ((kcCurrentContextChanged env.kubeConfig (loadFromStringFiltered raw) = true
        ∨ force = true) →
      (syncKubeConfig force (some { code := 0, stdout := raw, stderr := stderr })
          env).2.clustersTreeReloaded = true ∧
      (syncKubeConfig force (some { code := 0, stdout := raw, stderr := stderr })
          env).2.apiResourcesLoaded = true) ∧
    (kcCurrentContextChanged env.kubeConfig (loadFromStringFiltered raw) = false →
      force = false →
      kcContextsListChanged env.kubeConfig (loadFromStringFiltered raw) = true →
      (syncKubeConfig force (some { code := 0, stdout := raw, stderr := stderr })
          env).2.clustersTreeReloaded = true ∧
      (syncKubeConfig force (some { code := 0, stdout := raw, stderr := stderr })
          env).2.apiResourcesLoaded = false) := by
  rw [syncKubeConfig_changed_eq force env raw stderr ht, kubeconfigChanged_spec]
  constructor
  · rintro (hcc | hf)
    · simp [hcc]
    · simp [hf]
  · intro hcc hf hcl
    simp [hcc, hf, hcl]

/-- C5 witness: switching the current context from `a` to `b` changes the
text and the current context, and both the cluster tree reload and the
resource-kind reload fire (the second implication holds vacuously). -/
theorem syncKubeConfig_dispatch_witness :
    kcTextChanged sampleEnv.kubeConfig (loadFromStringFiltered sampleRawSwitchedB) = true ∧
    (((kcCurrentContextChanged sampleEnv.kubeConfig
          (loadFromStringFiltered sampleRawSwitchedB) = true ∨ false = true) →
      (syncKubeConfig false (some { code := 0, stdout := sampleRawSwitchedB, stderr := "" })
          sampleEnv).2.clustersTreeReloaded = true ∧
      (syncKubeConfig false (some { code := 0, stdout := sampleRawSwitchedB, stderr := "" })
          sampleEnv).2.apiResourcesLoaded = true) ∧
    (kcCurrentContextChanged sampleEnv.kubeConfig
        (loadFromStringFiltered sampleRawSwitchedB) = false →
      false = false →
      kcContextsListChanged sampleEnv.kubeConfig
        (loadFromStringFiltered sampleRawSwitchedB) = true →
      (syncKubeConfig false (some { code := 0, stdout := sampleRawSwitchedB, stderr := "" })
          sampleEnv).2.clustersTreeReloaded = true ∧
      (syncKubeConfig false (some { code := 0, stdout := sampleRawSwitchedB, stderr := "" })
          sampleEnv).2.apiResourcesLoaded = false)) :=
  ⟨by decide, syncKubeConfig_dispatch false sampleEnv sampleRawSwitchedB "" (by decide)⟩

/-- C6 counterexample: when the current context `a` is removed from the
context list while the current-context field still names `a`, the sync
state does become `NoContextSelected`, but the cluster-reachability and
GitOps-enabled flags are NOT cleared (they keep their previous `true`
values), contradicting the claim that they are cleared. -/
theorem syncKubeConfig_removed_context_counterexample :
    (syncKubeConfig false (some sampleRemovedAResult) sampleEnv).1.kubeConfigState
        = KubeConfigState.NoContextSelected ∧
    (syncKubeConfig false (some sampleRemovedAResult) sampleEnv).1.clusterUnreachableFlag
        = true ∧
    (syncKubeConfig false (some sampleRemovedAResult) sampleEnv).1.gitopsNotEnabledFlag
        = true := by
  decide

/-- C6 amended: in a sync cycle whose text changed and whose new snapshot
no longer contains the current context, the state becomes
`NoContextSelected`; the cluster-reachability and GitOps-enabled flags are
cleared exactly when the current context name changed, and otherwise keep
their previous values. -/
theorem syncKubeConfig_context_removed_amended (force : Bool) (env : SyncEnv)
    (raw : RawConfig) (stderr : String)
    (ht : kcTextChanged env.kubeConfig (loadFromStringFiltered raw) = true)
    (hex : currentContextExists (loadFromStringFiltered raw) = false) :
    (syncKubeConfig force (some { code := 0, stdout := raw, stderr := stderr })
        env).1.kubeConfigState = KubeConfigState.NoContextSelected ∧
    (syncKubeConfig force (some { code := 0, stdout := raw, stderr := stderr })
        env).1.gitopsNotEnabledFlag =
      (if kcCurrentContextChanged env.kubeConfig (loadFromStringFiltered raw) then false
       else env.gitopsNotEnabledFlag) ∧
    (syncKubeConfig force (some { code := 0, stdout := raw, stderr := stderr })
        env).1.clusterUnreachableFlag =
      (if kcCurrentContextChanged env.kubeConfig (loadFromStringFiltered raw) then false
       else env.clusterUnreachableFlag) := by
  rw [syncKubeConfig_changed_eq force env raw stderr ht, kubeconfigChanged_spec]
  simp [hex]

/-- C6 amended witness: the removed-context sample satisfies the
hypotheses; since the current context name did not change, both flags keep
their previous `true` values and the state is `NoContextSelected`. -/
theorem syncKubeConfig_context_removed_amended_witness :
    kcTextChanged sampleEnv.kubeConfig (loadFromStringFiltered sampleRawRemovedA) = true ∧
    currentContextExists (loadFromStringFiltered sampleRawRemovedA) = false ∧
    ((syncKubeConfig false (some { code := 0, stdout := sampleRawRemovedA, stderr := "" })
        sampleEnv).1.kubeConfigState = KubeConfigState.NoContextSelected ∧
    (syncKubeConfig false (some { code := 0, stdout := sampleRawRemovedA, stderr := "" })
        sampleEnv).1.gitopsNotEnabledFlag =
      (if kcCurrentContextChanged sampleEnv.kubeConfig
          (loadFromStringFiltered sampleRawRemovedA) then false
       else sampleEnv.gitopsNotEnabledFlag) ∧
    (syncKubeConfig false (some { code := 0, stdout := sampleRawRemovedA, stderr := "" })
        sampleEnv).1.clusterUnreachableFlag =
      (if kcCurrentContextChanged sampleEnv.kubeConfig
          (loadFromStringFiltered sampleRawRemovedA) then false
       else sampleEnv.clusterUnreachableFlag)) :=
  ⟨by decide, by decide,
    syncKubeConfig_context_removed_amended false sampleEnv sampleRawRemovedA ""
      (by decide) (by decide)⟩

/-- C8: in a sync cycle whose raw text is unchanged byte-for-byte, the
committed snapshot and the flags are untouched (only the state is set to
`Loaded`), no tree view reload is triggered, and the resource-kind reload
fires exactly when it was forced. -/
theorem syncKubeConfig_text_unchanged_frame (force : Bool) (env : SyncEnv)
    (raw : RawConfig) (stderr : String)
    (ht : kcTextChanged env.kubeConfig (loadFromStringFiltered raw) = false) :
    (syncKubeConfig force (some { code := 0, stdout := raw, stderr := stderr }) env).1
      = { env with kubeConfigState := KubeConfigState.Loaded } ∧
    (syncKubeConfig force (some { code := 0, stdout := raw, stderr := stderr }) env).2
      = (if force then { noEffects with apiResourcesLoaded := true } else noEffects) := by
  rw [syncKubeConfig_unchanged_eq force env raw stderr ht]
  exact ⟨rfl, rfl⟩

/-- C8 witness: re-syncing the byte-identical sample raw text with a forced
resource-kind reload leaves the committed snapshot and flags untouched and
triggers only the resource-kind reload. -/
theorem syncKubeConfig_text_unchanged_frame_witness :
    kcTextChanged sampleEnv.kubeConfig (loadFromStringFiltered sampleRawAB) = false ∧
    ((syncKubeConfig true (some { code := 0, stdout := sampleRawAB, stderr := "" })
        sampleEnv).1 = { sampleEnv with kubeConfigState := KubeConfigState.Loaded } ∧
    (syncKubeConfig true (some { code := 0, stdout := sampleRawAB, stderr := "" })
        sampleEnv).2 =
      (if true then { noEffects with apiResourcesLoaded := true } else noEffects)) :=
  ⟨by decide, syncKubeConfig_text_unchanged_frame true sampleEnv sampleRawAB "" (by decide)⟩

end GitOps
